import Mathlib

/-!
Verification of the RunRate transaction-categorization engine.

The definitions below are a shallow embedding of the Python sources:
* `src/utils/data_processor.py` — `DataProcessor.categorize_transactions`
* `src/utils/ml_categorizer.py` — `MLCategorizer.train/predict/predict_proba`
* `src/utils/category_manager.py` — `CategoryManager` mutation operations
* `src/utils/budget_manager.py` — `BudgetManager.get_budget_status`

Pandas-vectorized passes are embedded as per-row list traversals (each row's
result depends only on its own fields, so the column-wise masking of the
source is equivalent to a row-wise fold).  The scikit-learn pipeline is an
abstract oracle: fitting stores the training set, prediction consults an
uninterpreted function that may fault (`Option`), mirroring the source's
`try/except` fallbacks.  Effectful calls (training, persistence) are made
explicit in return values.
-/

namespace RunRate

/-- A transaction row: `Date`, `Description`, `Amount`, `Category` columns of
the ingested frame (`process_upload` sets `Category = "Uncategorized"`). -/
structure Transaction where
  date : String
  description : String
  amount : Int
  category : String
deriving Repr, DecidableEq, Inhabited

/-- The category→keywords mapping (`self.categories`), an insertion-ordered
dict in the source, embedded as an association list. -/
abbrev Rules := List (String × List String)

/-- Python's `needle in hay` substring test on character lists. -/
def isPre : List Char → List Char → Bool
  | [], _ => true
  | _ :: _, [] => false
  | a :: as, b :: bs => a == b && isPre as bs

/-- `needle in hay` (substring containment), Python semantics. -/
def containsSub (hay needle : List Char) : Bool :=
  match hay with
  | [] => needle.isEmpty
  | _ :: t => isPre needle hay || containsSub t needle

/-- `description.lower()` as a character list. -/
def lowerChars (s : String) : List Char :=
  s.data.map Char.toLower

/-- One category's mask test:
`any(keyword in x for keyword in keywords)` where `x` is the lower-cased
description (data_processor.py lines 56–58). -/
def matchesRule (keywords : List String) (desc : String) : Bool :=
  keywords.any (fun k => containsSub (lowerChars desc) k.data)

/-- The rule pass for one row: the loop
`for category, keywords in self.categories.items(): df.loc[mask,'Category']=category`
(data_processor.py lines 55–59); a later matching category overwrites an
earlier one, and a row with no match keeps its incoming category. -/
def ruleCategory (rules : Rules) (desc : String) (c : String) : String :=
  rules.foldl (fun acc r => if matchesRule r.2 desc then r.1 else acc) c

/-- The whole rule-based pass over the frame. -/
def rulePass (rules : Rules) (txs : List Transaction) : List Transaction :=
  txs.map (fun t => { t with category := ruleCategory rules t.description t.category })

/-- The trained text classifier as an oracle: prediction labels and
per-row maximum class probabilities for a list of descriptions
(`MLCategorizer.predict` / `predict_proba` as used by the engine). -/
structure TextClassifier where
  predict : List String → List String
  predictProba : List String → List ℚ

/-- The prediction-application loop (data_processor.py lines 79–83): the
idx-th still-"Uncategorized" row receives the idx-th prediction — the label
when its probability exceeds 0.7, else "Other"; rows beyond the prediction
list (Python `zip` truncation) are left unchanged. -/
def applyPredictions : List (String × ℚ) → List Transaction → List Transaction
  | _, [] => []
  | pp, t :: ts =>
    if t.category = "Uncategorized" then
      match pp with
      | [] => t :: applyPredictions [] ts
      | (c, p) :: rest =>
        { t with category := if (7 : ℚ) / 10 < p then c else "Other" } ::
          applyPredictions rest ts
    else t :: applyPredictions pp ts

/-- `df[uncategorized_mask]`: the rows still "Uncategorized" after the rule
pass (data_processor.py line 62). -/
def ruledUncat (rules : Rules) (txs : List Transaction) : List Transaction :=
  (rulePass rules txs).filter (fun t => decide (t.category = "Uncategorized"))

/-- `df[~uncategorized_mask]`: the rows the rule pass categorized
(data_processor.py line 65). -/
def ruledCatd (rules : Rules) (txs : List Transaction) : List Transaction :=
  (rulePass rules txs).filter (fun t => decide (¬ t.category = "Uncategorized"))

/-- The `Description` column of a frame (`df['Description'].tolist()`). -/
def descriptionsOf (txs : List Transaction) : List String :=
  txs.map (fun t => t.description)

/-- The `Category` column of a frame (`df['Category'].tolist()`). -/
def categoriesOf (txs : List Transaction) : List String :=
  txs.map (fun t => t.category)

/-- `DataProcessor.categorize_transactions` (data_processor.py lines 50–85).
Returns the new frame together with the arguments of the `train` call when
one is made (`none` when the classifier branch is skipped).  The classifier
branch runs iff some row is still "Uncategorized" after the rule pass
(`uncategorized_mask.any()`) AND at least 10 rows are categorized
(`len(categorized_df) >= 10`); the `train` return value is ignored by the
source, so prediction proceeds regardless of training success. -/
def categorize_transactions (rules : Rules) (clf : TextClassifier)
    (txs : List Transaction) : List Transaction × Option (List String × List String) :=
  if 0 < (ruledUncat rules txs).length ∧ 10 ≤ (ruledCatd rules txs).length then
    ( applyPredictions
        ((clf.predict (descriptionsOf (ruledUncat rules txs))).zip
          (clf.predictProba (descriptionsOf (ruledUncat rules txs))))
        (rulePass rules txs),
      some (descriptionsOf (ruledCatd rules txs), categoriesOf (ruledCatd rules txs)) )
  else
    (rulePass rules txs, none)

/-! ### MLCategorizer (src/utils/ml_categorizer.py) -/

/-- The classifier's mutable state: the fitted pipeline in memory (`self.model`)
and the persisted artifact (`assets/ml_model.joblib`).  A fitted pipeline is
summarized by the training set it was fitted on; `none` means unfitted. -/
structure MLState where
  mem : Option (List (String × String))
  disk : Option (List (String × String))
deriving Repr, DecidableEq

/-- The scikit-learn pipeline as an oracle: given the fitted training data and
a list of inputs, returns the predicted labels / per-input maximum class
probabilities, or `none` when the underlying call raises (the `except`
branches of `predict` / `predict_proba`). -/
structure SkPipeline where
  runPredict : List (String × String) → List String → Option (List String)
  runProba : List (String × String) → List String → Option (List ℚ)

/-- The rows surviving `train`'s per-category filter
(ml_categorizer.py lines 49–52): `value_counts` over the `Category` column,
then `isin` on the labels with at least `min_samples_per_category = 5`
occurrences — a row is kept iff its own label occurs at least 5 times in the
ORIGINAL input, so a deficient label loses all of its rows. -/
def trainKept (descriptions categories : List String) : List (String × String) :=
  (descriptions.zip categories).filter
    (fun p => decide (5 ≤ (descriptions.zip categories).countP (fun q => q.2 == p.2)))

/-- `MLCategorizer.train` (ml_categorizer.py lines 38–59): refuses on a
length mismatch, drops every row whose category has fewer than 5 occurrences,
refuses (returning `false` and leaving the in-memory and persisted state
untouched) when fewer than 10 rows survive, and otherwise fits the pipeline
(`self.model.fit`) and persists it (`self._save_model`). -/
def mlTrain (descriptions categories : List String) (st : MLState) : Bool × MLState :=
  if descriptions.length ≠ categories.length then (false, st)
  else if (trainKept descriptions categories).length < 10 then (false, st)
  else (true, { mem := some (trainKept descriptions categories),
                disk := some (trainKept descriptions categories) })

/-- `MLCategorizer.predict` (ml_categorizer.py lines 61–66): an unfitted
pipeline raises inside the `try`, and any fault is caught, so the call
falls back to `['Other'] * len(descriptions)`. -/
def mlPredict (pl : SkPipeline) (st : MLState) (descriptions : List String) : List String :=
  match st.mem with
  | none => List.replicate descriptions.length "Other"
  | some data =>
    (pl.runPredict data descriptions).getD (List.replicate descriptions.length "Other")

/-- `MLCategorizer.predict_proba` (ml_categorizer.py lines 68–74): same
fallback shape with `[0.0] * len(descriptions)`. -/
def mlPredictProba (pl : SkPipeline) (st : MLState) (descriptions : List String) : List ℚ :=
  match st.mem with
  | none => List.replicate descriptions.length 0
  | some data =>
    (pl.runProba data descriptions).getD (List.replicate descriptions.length 0)

/-! ### CategoryManager (src/utils/category_manager.py) -/

/-- `self.default_categories` (category_manager.py lines 7–9). -/
def default_categories : List String :=
  ["Food & Dining", "Transportation", "Shopping", "Bills & Utilities",
   "Entertainment", "Healthcare", "Travel", "Other"]

/-- The `self.categories` dict, an insertion-ordered mapping embedded as an
association list. -/
abbrev Categories := List (String × List String)

/-- `CategoryManager.get_all_categories` (lines 19–21). -/
def get_all_categories (cats : Categories) : List String :=
  cats.map (fun p => p.1)

/-- `self.categories.get(category, [])` lookup. -/
def get_category_keywords (cats : Categories) (category : String) : List String :=
  ((cats.find? (fun p => p.1 == category)).map (fun p => p.2)).getD []

/-- Drop leading whitespace from a character list. -/
def dropWs : List Char → List Char
  | [] => []
  | c :: cs => if c.isWhitespace then dropWs cs else c :: cs

/-- Python `s.strip()`: drop leading and trailing whitespace. -/
def stripStr (s : String) : String :=
  String.mk ((dropWs ((dropWs s.data).reverse)).reverse)

/-- `keyword.strip().lower()`. -/
def stripLower (s : String) : String :=
  String.mk ((stripStr s).data.map Char.toLower)

/-- `CategoryManager.add_category` (lines 27–41): validates the name only;
the keyword list is stored exactly as passed by the caller. -/
def add_category (cats : Categories) (category_name : String)
    (keywords : List String) : (Bool × String) × Categories :=
  if stripStr category_name = "" then ((false, "Category name cannot be empty"), cats)
  else if category_name ∈ get_all_categories cats then
    ((false, "Category already exists"), cats)
  else if 50 < category_name.length then
    ((false, "Category name too long (max 50 characters)"), cats)
  else ((true, "Category added successfully"), cats ++ [(category_name, keywords)])

/-- `CategoryManager.remove_category` (lines 43–52). -/
def remove_category (cats : Categories) (category_name : String) :
    (Bool × String) × Categories :=
  if category_name ∈ default_categories then
    ((false, "Cannot remove default category"), cats)
  else if category_name ∈ get_all_categories cats then
    ((true, "Category removed successfully"),
      cats.filter (fun p => p.1 != category_name))
  else ((false, "Category not found"), cats)

/-- `CategoryManager.add_keyword` (lines 54–66): the duplicate check
`keyword in self.categories[category]` uses the RAW keyword, while the append
stores `keyword.strip().lower()`. -/
def add_keyword (cats : Categories) (category keyword : String) :
    (Bool × String) × Categories :=
  if stripStr keyword = "" then ((false, "Keyword cannot be empty"), cats)
  else if category ∈ get_all_categories cats then
    if keyword ∈ get_category_keywords cats category then
      ((false, "Keyword already exists in category"), cats)
    else
      ((true, "Keyword added successfully"),
        cats.map (fun p =>
          if p.1 = category then (p.1, p.2 ++ [stripLower keyword]) else p))
  else ((false, "Category not found"), cats)

/-- `CategoryManager.remove_keyword` (lines 68–74): removes the first
occurrence of the raw keyword (Python `list.remove`). -/
def remove_keyword (cats : Categories) (category keyword : String) :
    (Bool × String) × Categories :=
  if category ∈ get_all_categories cats ∧ keyword ∈ get_category_keywords cats category then
    ((true, "Keyword removed successfully"),
      cats.map (fun p => if p.1 = category then (p.1, p.2.erase keyword) else p))
  else ((false, "Keyword not found"), cats)

/-! ### BudgetManager (src/utils/budget_manager.py) -/

/-- The dict returned by `BudgetManager.get_budget_status`. -/
structure BudgetStatus where
  has_budget : Bool
  budget_amount : ℚ
  spent : ℚ
  remaining : ℚ
  percentage_used : ℚ
deriving Repr, DecidableEq

/-- `BudgetManager.get_budget_status` (budget_manager.py lines 97–118).
The budget row for the category is abstracted to `Option ℚ` (the amount
returned by `get_budget`, `none` when no row exists). -/
def get_budget_status (budget : Option ℚ) (current_spending : ℚ) : BudgetStatus :=
  match budget with
  | none =>
    { has_budget := false
      budget_amount := 0
      spent := current_spending
      remaining := 0
      percentage_used := if 0 < current_spending then 100 else 0 }
  | some amount =>
    let percentage_used : ℚ :=
      if 0 < amount then current_spending / amount * 100 else 100
    { has_budget := true
      budget_amount := amount
      spent := current_spending
      remaining := amount - current_spending
      percentage_used := min percentage_used 100 }

/-! ## Helper lemmas -/

/-- The category the rule pass leaves on a row, computed from the right: the
last matching rule, if any. -/
def lastMatch (rules : Rules) (desc : String) : Option String :=
  match rules with
  | [] => none
  | r :: rs =>
    match lastMatch rs desc with
    | some c => some c
    | none => if matchesRule r.2 desc then some r.1 else none

theorem ruleCategory_eq_lastMatch (rules : Rules) (desc : String) :
    ∀ c0, ruleCategory rules desc c0 = (lastMatch rules desc).getD c0 := by
  induction rules with
  | nil => intro c0; rfl
  | cons r rs ih =>
    intro c0
    have hfold : ruleCategory (r :: rs) desc c0
        = ruleCategory rs desc (if matchesRule r.2 desc then r.1 else c0) := rfl
    rw [hfold, ih]
    by_cases h : matchesRule r.2 desc <;>
      cases hm : lastMatch rs desc <;>
        simp [lastMatch, hm, h]

theorem applyPredictions_cons_uncat_nil (a : Transaction) (as : List Transaction)
    (ha : a.category = "Uncategorized") :
    applyPredictions [] (a :: as) = a :: applyPredictions [] as := by
  simp [applyPredictions, ha]

theorem applyPredictions_cons_uncat (q : String × ℚ) (qs : List (String × ℚ))
    (a : Transaction) (as : List Transaction) (ha : a.category = "Uncategorized") :
    applyPredictions (q :: qs) (a :: as)
      = { a with category := if (7 : ℚ) / 10 < q.2 then q.1 else "Other" } ::
          applyPredictions qs as := by
  simp [applyPredictions, ha]

theorem applyPredictions_cons_ne (pp : List (String × ℚ)) (a : Transaction)
    (as : List Transaction) (ha : ¬ a.category = "Uncategorized") :
    applyPredictions pp (a :: as) = a :: applyPredictions pp as := by
  cases pp <;> simp [applyPredictions, ha]

theorem lastMatch_eq_filter_getLast (rules : Rules) (desc : String) :
    lastMatch rules desc
      = ((rules.filter (fun p => matchesRule p.2 desc)).getLast?).map (fun p => p.1) := by
  induction rules with
  | nil => rfl
  | cons r rs ih =>
    by_cases h : matchesRule r.2 desc
    · have hfc : (r :: rs).filter (fun p => matchesRule p.2 desc)
          = r :: rs.filter (fun p => matchesRule p.2 desc) := by
        simp [List.filter_cons, h]
      rw [hfc]
      cases hf : rs.filter (fun p => matchesRule p.2 desc) with
      | nil =>
        have hm : lastMatch rs desc = none := by rw [ih, hf]; rfl
        show (match lastMatch rs desc with
          | some c => some c
          | none => if matchesRule r.2 desc then some r.1 else none) = _
        rw [hm, List.getLast?_singleton]
        simp [h]
      | cons x xs =>
        rw [List.getLast?_cons_cons]
        cases hm : lastMatch rs desc with
        | some c =>
          have : ((x :: xs).getLast?).map (fun p => p.1) = some c := by
            rw [← hf, ← ih, hm]
          show (match lastMatch rs desc with
            | some c => some c
            | none => if matchesRule r.2 desc then some r.1 else none) = _
          rw [hm, this]
        | none =>
          exfalso
          rw [ih, hf] at hm
          rw [List.getLast?_eq_getLast_of_ne_nil (by simp : (x :: xs) ≠ [])] at hm
          simp at hm
    · have hfc : (r :: rs).filter (fun p => matchesRule p.2 desc)
          = rs.filter (fun p => matchesRule p.2 desc) := by
        simp [List.filter_cons, h]
      rw [hfc, ← ih]
      show (match lastMatch rs desc with
        | some c => some c
        | none => if matchesRule r.2 desc then some r.1 else none) = _
      cases hm : lastMatch rs desc <;> simp [hm, h]

theorem rulePass_getElem (rules : Rules) (txs : List Transaction) (i : ℕ) :
    (rulePass rules txs)[i]? =
      (txs[i]?).map
        (fun t => { t with category := ruleCategory rules t.description t.category }) := by
  simp [rulePass]

/-- A row that is not "Uncategorized" keeps its position and contents through
the prediction-application loop. -/
theorem applyPredictions_getElem_of_ne (ts : List Transaction) :
    ∀ (pp : List (String × ℚ)) (i : ℕ) (t : Transaction),
      ts[i]? = some t → ¬ t.category = "Uncategorized" →
      (applyPredictions pp ts)[i]? = some t := by
  induction ts with
  | nil => intro pp i t ht _; simp at ht
  | cons a as ih =>
    intro pp i t ht hc
    cases i with
    | zero =>
      simp only [List.getElem?_cons_zero, Option.some.injEq] at ht
      subst ht
      by_cases ha : a.category = "Uncategorized"
      · exact absurd ha hc
      · simp [applyPredictions, ha]
    | succ n =>
      simp only [List.getElem?_cons_succ] at ht
      by_cases ha : a.category = "Uncategorized"
      · cases pp with
        | nil =>
          rw [applyPredictions_cons_uncat_nil a as ha]
          simpa using ih [] n t ht hc
        | cons q qs =>
          rw [applyPredictions_cons_uncat q qs a as ha]
          simpa using ih qs n t ht hc
      · rw [applyPredictions_cons_ne pp a as ha]
        simpa using ih pp n t ht hc

theorem categorize_eq_of_skip (rules : Rules) (clf : TextClassifier)
    (txs : List Transaction)
    (h : ¬ (0 < (ruledUncat rules txs).length ∧ 10 ≤ (ruledCatd rules txs).length)) :
    categorize_transactions rules clf txs = (rulePass rules txs, none) := by
  unfold categorize_transactions
  rw [if_neg h]

theorem categorize_eq_of_run (rules : Rules) (clf : TextClassifier)
    (txs : List Transaction)
    (h1 : 0 < (ruledUncat rules txs).length)
    (h2 : 10 ≤ (ruledCatd rules txs).length) :
    categorize_transactions rules clf txs =
      ( applyPredictions
          ((clf.predict (descriptionsOf (ruledUncat rules txs))).zip
            (clf.predictProba (descriptionsOf (ruledUncat rules txs))))
          (rulePass rules txs),
        some (descriptionsOf (ruledCatd rules txs), categoriesOf (ruledCatd rules txs)) ) := by
  unfold categorize_transactions
  rw [if_pos ⟨h1, h2⟩]

theorem ruleCategory_of_no_match (rules : Rules) (desc c : String)
    (h : ∀ r ∈ rules, matchesRule r.2 desc = false) :
    ruleCategory rules desc c = c := by
  induction rules generalizing c with
  | nil => rfl
  | cons r rs ih =>
    have hr : matchesRule r.2 desc = false := h r (by simp)
    have hstep : ruleCategory (r :: rs) desc c
        = ruleCategory rs desc (if matchesRule r.2 desc then r.1 else c) := rfl
    rw [hstep, hr]
    exact ih c (fun r' hr' => h r' (by simp [hr']))

/-- A classifier whose predictions are the all-"Other"/all-zero fallback,
used to instantiate witnesses. -/
def constClassifier : TextClassifier :=
  ⟨fun ds => List.replicate ds.length "Other", fun ds => List.replicate ds.length 0⟩

/-! ## Claims -/

/-- C1: when at least one category's keyword occurs in the lower-cased
description, the rule pass of `categorize_transactions` assigns the LAST
matching category in the mapping's iteration order (a later category's match
overwrites an earlier one); in particular, when exactly one category
matches — a keyword registered to exactly one category and no keyword of any
other category occurs — the filtered list is a singleton and that category is
assigned.  (The matched category name must differ from the "Uncategorized"
sentinel, else the classifier branch could overwrite it.) -/
theorem c1_last_matching_category_wins (rules : Rules) (clf : TextClassifier)
    (txs : List Transaction) (i : ℕ) (t : Transaction) (r : String × List String)
    (ht : txs[i]? = some t)
    (hlast : (rules.filter (fun p => matchesRule p.2 t.description)).getLast? = some r)
    (hr : ¬ r.1 = "Uncategorized") :
    ∃ t', ((categorize_transactions rules clf txs).1)[i]? = some t'
      ∧ t'.category = r.1 := by
  have hrc : ruleCategory rules t.description t.category = r.1 := by
    rw [ruleCategory_eq_lastMatch, lastMatch_eq_filter_getLast, hlast]
    rfl
  have hruled : (rulePass rules txs)[i]? = some { t with category := r.1 } := by
    rw [rulePass_getElem, ht]
    simp [hrc]
  by_cases hc : 0 < (ruledUncat rules txs).length ∧ 10 ≤ (ruledCatd rules txs).length
  · rw [categorize_eq_of_run rules clf txs hc.1 hc.2]
    exact ⟨{ t with category := r.1 },
      applyPredictions_getElem_of_ne (rulePass rules txs) _ i _ hruled hr, rfl⟩
  · rw [categorize_eq_of_skip rules clf txs hc]
    exact ⟨{ t with category := r.1 }, hruled, rfl⟩

theorem c1_last_matching_category_wins_witness :
    ∃ t', ((categorize_transactions
        [("Food", ["walmart", "grocery"]), ("Gas", ["shell", "chevron"])]
        constClassifier
        [⟨"2024-01-01", "Walmart Shell #1", 5, "Uncategorized"⟩]).1)[0]? = some t'
      ∧ t'.category = "Gas" :=
  c1_last_matching_category_wins
    [("Food", ["walmart", "grocery"]), ("Gas", ["shell", "chevron"])]
    constClassifier
    [⟨"2024-01-01", "Walmart Shell #1", 5, "Uncategorized"⟩]
    0 ⟨"2024-01-01", "Walmart Shell #1", 5, "Uncategorized"⟩
    ("Gas", ["shell", "chevron"])
    rfl (by decide) (by decide)

/-- C2: when the rule pass leaves fewer than 10 rows categorized, the
classifier branch is skipped: no `train` call is made, the result equals the
plain rule pass for EVERY classifier (so no prediction can influence it), and
every rule-unmatched row — starting, as after ingestion, at
"Uncategorized" — still carries "Uncategorized". -/
theorem c2_classifier_skipped_below_ten (rules : Rules) (clf clf2 : TextClassifier)
    (txs : List Transaction)
    (h0 : ∀ t ∈ txs, t.category = "Uncategorized")
    (hlt : (ruledCatd rules txs).length < 10) :
    categorize_transactions rules clf txs = (rulePass rules txs, none) ∧
    categorize_transactions rules clf txs = categorize_transactions rules clf2 txs ∧
    (∀ (i : ℕ) (t : Transaction), txs[i]? = some t →
      (∀ r ∈ rules, matchesRule r.2 t.description = false) →
      ((categorize_transactions rules clf txs).1)[i]? = some t) := by
  have hno : ¬ (0 < (ruledUncat rules txs).length ∧ 10 ≤ (ruledCatd rules txs).length) := by
    rintro ⟨-, h10⟩
    omega
  refine ⟨categorize_eq_of_skip rules clf txs hno, ?_, ?_⟩
  · rw [categorize_eq_of_skip rules clf txs hno, categorize_eq_of_skip rules clf2 txs hno]
  · intro i t ht hnm
    rw [categorize_eq_of_skip rules clf txs hno]
    have hmem : t ∈ txs := List.getElem?_mem ht
    have hcat : t.category = "Uncategorized" := h0 t hmem
    have : (rulePass rules txs)[i]? =
        some { t with category := ruleCategory rules t.description t.category } := by
      rw [rulePass_getElem, ht]; rfl
    rw [ruleCategory_of_no_match rules t.description t.category hnm, hcat] at this
    simpa [← hcat] using this

theorem c2_classifier_skipped_below_ten_witness :
    ((categorize_transactions
        [("Food", ["walmart", "grocery"]), ("Gas", ["shell", "chevron"])]
        constClassifier
        [⟨"2024-01-01", "Walmart #123", 5, "Uncategorized"⟩,
         ⟨"2024-01-02", "Shell gas", 30, "Uncategorized"⟩,
         ⟨"2024-01-03", "Unknown Merchant", 12, "Uncategorized"⟩]).1)[2]?
      = some ⟨"2024-01-03", "Unknown Merchant", 12, "Uncategorized"⟩ :=
  (c2_classifier_skipped_below_ten
    [("Food", ["walmart", "grocery"]), ("Gas", ["shell", "chevron"])]
    constClassifier constClassifier
    [⟨"2024-01-01", "Walmart #123", 5, "Uncategorized"⟩,
     ⟨"2024-01-02", "Shell gas", 30, "Uncategorized"⟩,
     ⟨"2024-01-03", "Unknown Merchant", 12, "Uncategorized"⟩]
    (by decide) (by decide)).2.2 2
    ⟨"2024-01-03", "Unknown Merchant", 12, "Uncategorized"⟩ rfl (by decide)

/-- C3 counterexample: the claim "rule pass categorizes ≥ 10 rows ⟹ train is
invoked" fails when NO row is left uncategorized: the whole classifier block
sits under `if uncategorized_mask.any()`, so with 10 rows all matching a rule
the train call is not made. -/
theorem c3_counterexample :
    10 ≤ (ruledCatd [("Food", ["aa"])]
        (List.replicate 10 ⟨"2024-01-01", "aa", 1, "Uncategorized"⟩)).length ∧
    (categorize_transactions [("Food", ["aa"])] constClassifier
        (List.replicate 10 ⟨"2024-01-01", "aa", 1, "Uncategorized"⟩)).2 = none := by
  constructor
  · decide
  · rw [categorize_eq_of_skip]
    rintro ⟨h1, -⟩
    revert h1
    decide

/-- C3 (amended): when the rule pass categorizes at least 10 rows AND at
least one row remains "Uncategorized", `categorize_transactions` invokes
`train` with exactly the categorized partition's `Description` column as
texts and its `Category` column as labels. -/
theorem c3_train_called_on_categorized_partition (rules : Rules)
    (clf : TextClassifier) (txs : List Transaction)
    (h1 : 0 < (ruledUncat rules txs).length)
    (h2 : 10 ≤ (ruledCatd rules txs).length) :
    (categorize_transactions rules clf txs).2 =
      some (descriptionsOf (ruledCatd rules txs), categoriesOf (ruledCatd rules txs)) := by
  rw [categorize_eq_of_run rules clf txs h1 h2]

theorem c3_train_called_on_categorized_partition_witness :
    (categorize_transactions [("Food", ["aa"])] constClassifier
        (List.replicate 10 ⟨"2024-01-01", "aa", 1, "Uncategorized"⟩ ++
          [⟨"2024-01-02", "zzz", 2, "Uncategorized"⟩])).2 =
      some
        (descriptionsOf (ruledCatd [("Food", ["aa"])]
          (List.replicate 10 ⟨"2024-01-01", "aa", 1, "Uncategorized"⟩ ++
            [⟨"2024-01-02", "zzz", 2, "Uncategorized"⟩])),
         categoriesOf (ruledCatd [("Food", ["aa"])]
          (List.replicate 10 ⟨"2024-01-01", "aa", 1, "Uncategorized"⟩ ++
            [⟨"2024-01-02", "zzz", 2, "Uncategorized"⟩]))) :=
  c3_train_called_on_categorized_partition [("Food", ["aa"])] constClassifier
    (List.replicate 10 ⟨"2024-01-01", "aa", 1, "Uncategorized"⟩ ++
      [⟨"2024-01-02", "zzz", 2, "Uncategorized"⟩])
    (by decide) (by decide)

/-- The prediction-application loop, characterized over the still-
"Uncategorized" positions: reading the output's category at exactly those
positions yields, in order, the thresholded predictions. -/
theorem applyPredictions_zip_spec (ts : List Transaction) :
    ∀ pp : List (String × ℚ),
      pp.length = (ts.filter (fun t => decide (t.category = "Uncategorized"))).length →
      (ts.zip (applyPredictions pp ts)).filterMap
          (fun rp => if rp.1.category = "Uncategorized" then some rp.2.category else none)
        = pp.map (fun cp => if (7 : ℚ) / 10 < cp.2 then cp.1 else "Other") := by
  induction ts with
  | nil =>
    intro pp h
    simp only [List.filter_nil, List.length_nil] at h
    rw [List.length_eq_zero.mp h]
    rfl
  | cons a as ih =>
    intro pp h
    by_cases ha : a.category = "Uncategorized"
    · have hlen : pp.length = (as.filter (fun t => decide (t.category = "Uncategorized"))).length + 1 := by
        simpa [List.filter_cons, ha] using h
      cases pp with
      | nil => simp at hlen
      | cons q qs =>
        rw [applyPredictions_cons_uncat q qs a as ha]
        simp only [List.zip_cons_cons, List.filterMap_cons, List.map_cons]
        rw [if_pos ha]
        have : qs.length = (as.filter (fun t => decide (t.category = "Uncategorized"))).length := by
          simpa using hlen
        rw [ih qs this]
    · have hlen : pp.length = (as.filter (fun t => decide (t.category = "Uncategorized"))).length := by
        simpa [List.filter_cons, ha] using h
      rw [applyPredictions_cons_ne pp a as ha]
      simp only [List.zip_cons_cons, List.filterMap_cons]
      rw [if_neg ha, ih pp hlen]

/-- C4: when the classifier branch runs, the rows left "Uncategorized" by the
rule pass receive, in order, the classifier's predicted label exactly when
its confidence exceeds 0.7 and "Other" otherwise (stated given that
`predict`/`predict_proba` return one result per input, as the source's
contract guarantees). -/
theorem c4_confidence_threshold (rules : Rules) (clf : TextClassifier)
    (txs : List Transaction)
    (h1 : 0 < (ruledUncat rules txs).length)
    (h2 : 10 ≤ (ruledCatd rules txs).length)
    (hp : (clf.predict (descriptionsOf (ruledUncat rules txs))).length
        = (ruledUncat rules txs).length)
    (hq : (clf.predictProba (descriptionsOf (ruledUncat rules txs))).length
        = (ruledUncat rules txs).length) :
    ((rulePass rules txs).zip (categorize_transactions rules clf txs).1).filterMap
        (fun rp => if rp.1.category = "Uncategorized" then some rp.2.category else none)
      = ((clf.predict (descriptionsOf (ruledUncat rules txs))).zip
          (clf.predictProba (descriptionsOf (ruledUncat rules txs)))).map
          (fun cp => if (7 : ℚ) / 10 < cp.2 then cp.1 else "Other") := by
  rw [categorize_eq_of_run rules clf txs h1 h2]
  refine applyPredictions_zip_spec (rulePass rules txs) _ ?_
  rw [List.length_zip, hp, hq]
  exact Nat.min_self _

/-- A two-prediction classifier for the C4 witness: confidences 0.8 and 0.5. -/
def twoPredClassifier : TextClassifier :=
  ⟨fun _ => ["Gas", "Food"], fun _ => [4 / 5, 1 / 2]⟩

theorem c4_confidence_threshold_witness :
    ((rulePass [("Food", ["aa"])]
        (List.replicate 10 ⟨"2024-01-01", "aa", 1, "Uncategorized"⟩ ++
          [⟨"2024-01-02", "zzz", 2, "Uncategorized"⟩,
           ⟨"2024-01-03", "yyy", 3, "Uncategorized"⟩])).zip
      (categorize_transactions [("Food", ["aa"])] twoPredClassifier
        (List.replicate 10 ⟨"2024-01-01", "aa", 1, "Uncategorized"⟩ ++
          [⟨"2024-01-02", "zzz", 2, "Uncategorized"⟩,
           ⟨"2024-01-03", "yyy", 3, "Uncategorized"⟩])).1).filterMap
        (fun rp => if rp.1.category = "Uncategorized" then some rp.2.category else none)
      = ((twoPredClassifier.predict (descriptionsOf (ruledUncat [("Food", ["aa"])]
            (List.replicate 10 ⟨"2024-01-01", "aa", 1, "Uncategorized"⟩ ++
              [⟨"2024-01-02", "zzz", 2, "Uncategorized"⟩,
               ⟨"2024-01-03", "yyy", 3, "Uncategorized"⟩])))).zip
          (twoPredClassifier.predictProba (descriptionsOf (ruledUncat [("Food", ["aa"])]
            (List.replicate 10 ⟨"2024-01-01", "aa", 1, "Uncategorized"⟩ ++
              [⟨"2024-01-02", "zzz", 2, "Uncategorized"⟩,
               ⟨"2024-01-03", "yyy", 3, "Uncategorized"⟩]))))).map
          (fun cp => if (7 : ℚ) / 10 < cp.2 then cp.1 else "Other") :=
  c4_confidence_threshold [("Food", ["aa"])] twoPredClassifier
    (List.replicate 10 ⟨"2024-01-01", "aa", 1, "Uncategorized"⟩ ++
      [⟨"2024-01-02", "zzz", 2, "Uncategorized"⟩,
       ⟨"2024-01-03", "yyy", 3, "Uncategorized"⟩])
    (by decide) (by decide) (by decide) (by decide)

/-- C5: `train` keeps a row exactly when its label has at least 5 occurrences
in the input (so a deficient label is dropped with ALL of its rows); if fewer
than 10 rows survive, it returns failure and leaves the in-memory and
persisted model state untouched; only with at least 10 surviving rows does it
fit and persist (recording the surviving training set in both fields). -/
theorem c5_train_filtering_and_threshold (ds cs : List String) (st : MLState)
    (hlen : ds.length = cs.length) :
    (∀ p ∈ ds.zip cs,
        p ∈ trainKept ds cs ↔ 5 ≤ (ds.zip cs).countP (fun q => q.2 == p.2)) ∧
    ((trainKept ds cs).length < 10 → mlTrain ds cs st = (false, st)) ∧
    (10 ≤ (trainKept ds cs).length →
      mlTrain ds cs st =
        (true, { mem := some (trainKept ds cs), disk := some (trainKept ds cs) })) := by
  refine ⟨?_, ?_, ?_⟩
  · intro p hp
    simp [trainKept, List.mem_filter, hp]
  · intro hlt
    unfold mlTrain
    rw [if_neg (by omega), if_pos hlt]
  · intro hge
    unfold mlTrain
    rw [if_neg (by omega), if_neg (by omega)]

theorem c5_train_filtering_and_threshold_witness :
    mlTrain (List.replicate 12 "desc")
        (List.replicate 6 "A" ++ List.replicate 6 "B") ⟨none, none⟩ =
      (true,
        { mem := some (trainKept (List.replicate 12 "desc")
            (List.replicate 6 "A" ++ List.replicate 6 "B")),
          disk := some (trainKept (List.replicate 12 "desc")
            (List.replicate 6 "A" ++ List.replicate 6 "B")) }) :=
  (c5_train_filtering_and_threshold (List.replicate 12 "desc")
    (List.replicate 6 "A" ++ List.replicate 6 "B") ⟨none, none⟩ (by decide)).2.2
    (by decide)

/-- C6: `predict` / `predict_proba` on a never-successfully-trained model, or
when the underlying pipeline call faults, return the fallbacks
`['Other'] * len(descriptions)` and `[0.0] * len(descriptions)` — one result
per input, same length as the input — instead of propagating the error (the
Lean embedding is total, mirroring the source's catch-all `except`). -/
theorem c6_predict_fallback (pl : SkPipeline) (st : MLState) (ds : List String) :
    (st.mem = none →
      mlPredict pl st ds = List.replicate ds.length "Other" ∧
      mlPredictProba pl st ds = List.replicate ds.length 0) ∧
    (∀ data, st.mem = some data → pl.runPredict data ds = none →
      mlPredict pl st ds = List.replicate ds.length "Other") ∧
    (∀ data, st.mem = some data → pl.runProba data ds = none →
      mlPredictProba pl st ds = List.replicate ds.length 0) := by
  refine ⟨?_, ?_, ?_⟩
  · intro h
    constructor
    · simp [mlPredict, h]
    · simp [mlPredictProba, h]
  · intro data h hf
    simp [mlPredict, h, hf]
  · intro data h hf
    simp [mlPredictProba, h, hf]

/-- A pipeline oracle that always faults, for the C6 witness. -/
def faultyPipeline : SkPipeline :=
  ⟨fun _ _ => none, fun _ _ => none⟩

theorem c6_predict_fallback_witness :
    mlPredict faultyPipeline ⟨none, none⟩ ["starbucks", "uber ride"]
        = List.replicate 2 "Other" ∧
    mlPredictProba faultyPipeline ⟨none, none⟩ ["starbucks", "uber ride"]
        = List.replicate 2 0 :=
  (c6_predict_fallback faultyPipeline ⟨none, none⟩ ["starbucks", "uber ride"]).1 rfl

/-- C7 (code bug): the keyword-uniqueness invariant does NOT survive
`add_keyword`.  The duplicate check compares the RAW keyword against the
stored list, but the append stores `keyword.strip().lower()`
(category_manager.py lines 60–63): from the invariant-satisfying state
`{"Food": ["abc"]}`, `add_keyword("Food", "ABC")` passes the check (the raw
"ABC" is not in the list) and appends "abc", leaving the duplicate list
`["abc", "abc"]` and reporting success. -/
theorem c7_add_keyword_breaks_uniqueness :
    (add_keyword [("Food", ["abc"])] "Food" "ABC").1.1 = true ∧
    (add_keyword [("Food", ["abc"])] "Food" "ABC").2 = [("Food", ["abc", "abc"])] := by
  decide

/-- C8: `remove_category` on a default name fails with a message and leaves
the mapping unchanged; on an existing non-default name it succeeds and the
name no longer appears in `get_all_categories`; on a missing name it fails. -/
theorem c8_remove_category_policy (cats : Categories) (name : String) :
    (name ∈ default_categories →
      remove_category cats name = ((false, "Cannot remove default category"), cats)) ∧
    (¬ name ∈ default_categories → name ∈ get_all_categories cats →
      (remove_category cats name).1.1 = true ∧
      ¬ name ∈ get_all_categories (remove_category cats name).2) ∧
    (¬ name ∈ get_all_categories cats → (remove_category cats name).1.1 = false) := by
  refine ⟨?_, ?_, ?_⟩
  · intro h
    rw [remove_category, if_pos h]
  · intro hdef hmem
    rw [remove_category, if_neg hdef, if_pos hmem]
    refine ⟨rfl, ?_⟩
    simp [get_all_categories, List.mem_filter]
  · intro hmem
    by_cases hdef : name ∈ default_categories
    · rw [remove_category, if_pos hdef]
    · rw [remove_category, if_neg hdef, if_neg hmem]

theorem c8_remove_category_policy_witness :
    (remove_category [("Food & Dining", ["restaurant"]), ("Crypto", ["coinbase"])]
        "Crypto").1.1 = true ∧
    ¬ "Crypto" ∈ get_all_categories
        (remove_category [("Food & Dining", ["restaurant"]), ("Crypto", ["coinbase"])]
          "Crypto").2 :=
  (c8_remove_category_policy
    [("Food & Dining", ["restaurant"]), ("Crypto", ["coinbase"])] "Crypto").2.1
    (by decide) (by decide)

/-- C9: `get_budget_status` with no budget row reports `has_budget = false`
and `percentage_used = 100` iff the spend is positive (else 0); with a
positive budget `B` it reports `has_budget = true`, `remaining = B - S` and
`percentage_used = min (S / B * 100) 100`; with a zero budget the percentage
is pinned at 100. -/
theorem c9_budget_status (B S : ℚ) :
    (get_budget_status none S =
      { has_budget := false, budget_amount := 0, spent := S, remaining := 0,
        percentage_used := if 0 < S then 100 else 0 }) ∧
    (0 < B → get_budget_status (some B) S =
      { has_budget := true, budget_amount := B, spent := S, remaining := B - S,
        percentage_used := min (S / B * 100) 100 }) ∧
    (get_budget_status (some 0) S =
      { has_budget := true, budget_amount := 0, spent := S, remaining := 0 - S,
        percentage_used := 100 }) := by
  refine ⟨rfl, ?_, ?_⟩
  · intro hB
    rw [get_budget_status]
    simp [hB]
  · rw [get_budget_status]
    simp

theorem c9_budget_status_witness :
    get_budget_status (some 200) 50 =
      { has_budget := true, budget_amount := 200, spent := 50, remaining := 150,
        percentage_used := min (50 / 200 * 100) 100 } := by
  have h := (c9_budget_status 200 50).2.1 (by norm_num)
  rw [h]
  norm_num

/-- Rows correspond when only the `Category` column may differ. -/
def sameFrame (a b : Transaction) : Prop :=
  b.date = a.date ∧ b.description = a.description ∧ b.amount = a.amount

theorem forall₂_sameFrame_rulePass (rules : Rules) (txs : List Transaction) :
    List.Forall₂ sameFrame txs (rulePass rules txs) := by
  induction txs with
  | nil => exact List.Forall₂.nil
  | cons a as ih => exact List.Forall₂.cons ⟨rfl, rfl, rfl⟩ ih

theorem forall₂_sameFrame_applyPredictions (ts : List Transaction) :
    ∀ pp : List (String × ℚ), List.Forall₂ sameFrame ts (applyPredictions pp ts) := by
  induction ts with
  | nil => intro pp; exact List.Forall₂.nil
  | cons a as ih =>
    intro pp
    by_cases ha : a.category = "Uncategorized"
    · cases pp with
      | nil =>
        rw [applyPredictions_cons_uncat_nil a as ha]
        exact List.Forall₂.cons ⟨rfl, rfl, rfl⟩ (ih [])
      | cons q qs =>
        rw [applyPredictions_cons_uncat q qs a as ha]
        exact List.Forall₂.cons ⟨rfl, rfl, rfl⟩ (ih qs)
    · rw [applyPredictions_cons_ne pp a as ha]
      exact List.Forall₂.cons ⟨rfl, rfl, rfl⟩ (ih pp)

theorem forall₂_sameFrame_trans :
    ∀ {l1 l2 l3 : List Transaction}, List.Forall₂ sameFrame l1 l2 →
      List.Forall₂ sameFrame l2 l3 → List.Forall₂ sameFrame l1 l3 := by
  intro l1 l2 l3 h12
  induction h12 generalizing l3 with
  | nil =>
    intro h23
    cases h23
    exact List.Forall₂.nil
  | cons hab h ih =>
    intro h23
    cases h23 with
    | cons hbc h' =>
      exact List.Forall₂.cons
        ⟨hbc.1.trans hab.1, hbc.2.1.trans hab.2.1, hbc.2.2.trans hab.2.2⟩ (ih h')

/-- C10: `categorize_transactions` is non-mutating in the embedding (a pure
function of its input) and its output corresponds row-by-row, in order and
with the same row count, to the input: `Date`, `Description` and `Amount` are
unchanged and only `Category` may differ. -/
theorem c10_frame_preservation (rules : Rules) (clf : TextClassifier)
    (txs : List Transaction) :
    ((categorize_transactions rules clf txs).1).length = txs.length ∧
    List.Forall₂ sameFrame txs (categorize_transactions rules clf txs).1 := by
  have hmain : List.Forall₂ sameFrame txs (categorize_transactions rules clf txs).1 := by
    by_cases hc : 0 < (ruledUncat rules txs).length ∧ 10 ≤ (ruledCatd rules txs).length
    · rw [categorize_eq_of_run rules clf txs hc.1 hc.2]
      exact forall₂_sameFrame_trans (forall₂_sameFrame_rulePass rules txs)
        (forall₂_sameFrame_applyPredictions (rulePass rules txs) _)
    · rw [categorize_eq_of_skip rules clf txs hc]
      exact forall₂_sameFrame_rulePass rules txs
  exact ⟨hmain.length_eq.symm, hmain⟩

end RunRate
